import Mathlib

/-!
Verification of the node lifecycle reconciliation and remote-configuration
engine of the windows-machine-config-operator sources.

Shallow embedding of:
  * pkg/instances/instances.go        (InstanceInfo, UpToDate, UpgradeRequired)
  * pkg/annotations (src/unnamed/part_000, package annotations)
                                       (generateAnnotationPatch, GenerateAddPatch,
                                        GenerateRemovePatch, formatPathValue)
  * pkg/windows (src/unnamed/part_000, package windows)
                                       (sshConnectivity.init, sshConnectivity.transfer)
  * the upgrade gate and certificate-convergence pass, modelled from the spec
    where their implementations are not among the sources.
-/

namespace WMCO

/-! ## Instance records and version state (pkg/instances/instances.go) -/

/-- The subset of a Kubernetes Node object the lifecycle predicates read:
its annotations, a string-to-string map modelled as an association list
(`GetAnnotations()[key]` becomes `List.lookup`). -/
structure Node where
  annotations : List (String × String)
deriving Repr, DecidableEq

/-- `metadata.versionAnnotationKey`, the annotation key recording which controller
version last fully configured the host.  The `pkg/metadata` package is not among
the sources; the predicates below only pass this key to map lookups, so its
exact value is irrelevant to every claim. -/
def versionAnnotationKey : String := "windowsmachineconfig.openshift.io/version"

/-- `InstanceInfo` represents a host that is meant to be joined to the cluster
(pkg/instances/instances.go). `node` is `none` when the instance has no
associated Node object. -/
structure InstanceInfo where
  address : String
  username : String
  newHostname : String
  node : Option Node
deriving Repr, DecidableEq

/-- `NewInstanceInfo` returns a new InstanceInfo. -/
def NewInstanceInfo (address username newHostname : String) (node : Option Node) :
    InstanceInfo :=
  { address := address, username := username, newHostname := newHostname, node := node }

/-- `InstanceInfo.UpToDate`: true if the instance was configured by the current
WMCO version.  `currentVersion` stands for `version.Get()`, the running
controller version (the `version` package is a process-wide constant, so it is
passed as a parameter here). -/
def InstanceInfo.UpToDate (i : InstanceInfo) (currentVersion : String) : Bool :=
  match i.node with
  | none => false
  | some n =>
    match n.annotations.lookup versionAnnotationKey with
    | none => false
    | some versionValue => versionValue == currentVersion

/-- `InstanceInfo.UpgradeRequired`: true if the instance needs to go through the
upgrade process (pkg/instances/instances.go). -/
def InstanceInfo.UpgradeRequired (i : InstanceInfo) (currentVersion : String) : Bool :=
  -- instance being up to date implies instance is fully upgraded
  if i.UpToDate currentVersion then false
  else
    match i.node with
    -- instance has no node and should not go through the upgrade process
    | none => false
    | some n =>
      match n.annotations.lookup versionAnnotationKey with
      -- version annotation not present: node created but not fully configured
      | none => false
      -- version annotation has an incorrect value: configured by an older version
      | some _ => true

/-- The "needs first-time configuration" case of the spec: cluster object absent
OR version annotation absent. -/
def InstanceInfo.needsFirstTimeConfiguration (i : InstanceInfo) : Bool :=
  match i.node with
  | none => true
  | some n => (n.annotations.lookup versionAnnotationKey).isNone

/-! ## Metadata patch builder (package annotations) -/

/-- `patch.JSONPatch`: one (op, path, value) triple of a JSON patch document. -/
structure JSONPatch where
  op : String
  path : String
  value : String
deriving Repr, DecidableEq

/-- `patch.NewJSONPatch` constructs a JSONPatch. -/
def NewJSONPatch (op path value : String) : JSONPatch :=
  { op := op, path := path, value := value }

/-- `strings.Replace(key, "/", "~1", -1)`: since the pattern is the single
character '/', replacing every non-overlapping instance is exactly replacing
every occurrence of the character. -/
def escapeKey (key : String) : String :=
  String.mk (key.data.flatMap fun c => if c = '/' then ['~', '1'] else [c])

/-- `formatPathValue` formats the path value specifying which attribute a JSON
Patch operation should be applied to.  The '/' in the annotation key is escaped
in order to not be considered a "directory" in the path. -/
def formatPathValue (key : String) : String :=
  "/metadata/annotations/" ++ escapeKey key

/-- `generateAnnotationPatch` creates a patch applying the given operation onto
each given annotation key and value.  The Go `map[string]string` argument is
modelled as an association list with distinct keys; `json.Marshal` of the
in-memory patch slice cannot fail for this struct type, so success carries the
patch list itself. -/
def generateAnnotationPatch (op : String) (annotations : List (String × String)) :
    Except String (List JSONPatch) :=
  if annotations.length = 0 then
    .error "annotations to format cannot be empty or nil"
  else
    .ok (annotations.map fun kv => NewJSONPatch op (formatPathValue kv.1) kv.2)

/-- `GenerateAddPatch` creates a list of operations to add all given annotations
to an object.  An "add" patch overwrites the existing value if an annotation
already exists. -/
def GenerateAddPatch (annotations : List (String × String)) :
    Except String (List JSONPatch) :=
  generateAnnotationPatch "add" annotations

/-- `GenerateRemovePatch` creates a list of operations to remove all given
annotations from an object.  The Go code first folds the key list into a
`map[string]string` with empty values, deduplicating keys. -/
def GenerateRemovePatch (annotations : List String) : Except String (List JSONPatch) :=
  generateAnnotationPatch "remove" (annotations.dedup.map fun a => (a, ""))

/-! ## SSH transport (package windows) -/

/-- The substring of an SSH dial error message that marks a credential
rejection (`strings.Contains(err.Error(), "unable to authenticate")`). -/
def authNeedle : String := "unable to authenticate"

/-- `strings.Contains(msg, authNeedle)`. -/
def containsAuthFailure (msg : String) : Bool :=
  decide (authNeedle.data <:+: msg.data)

/-- Result of `sshConnectivity.init`.  `incomplete` is the early return for
missing username/address/signer; `auth m` wraps an `AuthErr` carrying the dial
error message; `timedOut` is `wait.ErrWaitTimeout` escalated after the bounded
retry window. -/
inductive InitError
  | incomplete
  | auth (msg : String)
  | timedOut
deriving Repr, DecidableEq

/-- The connection-establishment data of `sshConnectivity`: the user to connect
to the VM, the VM's IP address, and whether an authentication signer is set
(`c.signer == nil` becomes `signerPresent = false`). -/
structure SSHConfig where
  username : String
  ipAddress : String
  signerPresent : Bool
deriving Repr, DecidableEq

/-- One `ssh.Dial` attempt is an external event: `none` is a successful dial,
`some msg` a dial error with message `msg`.  A transport's behaviour is the
sequence of its attempt outcomes, indexed by attempt number. -/
def DialSeq : Type := Nat → Option String

/-- The `wait.PollImmediate` loop body of `sshConnectivity.init`: attempt a
dial; on success stop with the index of the successful attempt (the usable
client); on an error containing the authentication marker abort immediately
with `AuthErr`; on any other error retry on the next poll tick.  `fuel` is the
number of attempts the fixed poll interval fits into `retry.Timeout`; when it
runs out, `wait.PollImmediate` returns its timeout error. -/
def sshDialLoop (dial : DialSeq) : Nat → Nat → Except InitError Nat
  | 0, _ => .error .timedOut
  | fuel + 1, i =>
    match dial i with
    | none => .ok i
    | some msg =>
      if containsAuthFailure msg then .error (.auth msg)
      else sshDialLoop dial fuel (i + 1)

/-- `sshConnectivity.init`: checks the connectivity information is complete,
then runs the bounded dial-retry loop; on success the client of the successful
attempt is installed (represented by the attempt index). -/
def sshInit (c : SSHConfig) (fuel : Nat) (dial : DialSeq) : Except InitError Nat :=
  if c.username = "" || c.ipAddress = "" || !c.signerPresent then .error .incomplete
  else sshDialLoop dial fuel 0

/-- The external outcomes a `transfer` call can encounter, in source order:
whether the SSH client is set, whether `sftp.NewClient` succeeds, whether
`MkdirAll` succeeds, whether `Create` succeeds, whether `io.Copy` succeeds,
and whether the final `dstFile.Close()` succeeds. -/
structure TransferEnv where
  clientPresent : Bool
  sftpOk : Bool
  mkdirOk : Bool
  createOk : Bool
  copyOk : Bool
  closeOk : Bool
deriving Repr, DecidableEq

/-- What a `transfer` call did and returned: `result = none` models a `nil`
error (success), `result = some e` an error return; the remaining fields record
the destination file's fate on the remote host. -/
structure TransferOutcome where
  result : Option String
  fileWritten : Bool
  closeAttempted : Bool
  closeSucceeded : Bool
deriving Repr, DecidableEq

/-- `sshConnectivity.transfer`: copies from the reader to the remote directory,
creating it if needed.  Each early `return err` leaves the file unwritten (or,
after a mid-copy failure, not fully written) and unclosed.  After a successful
copy the file is forcefully closed so that it can be executed later; a `Close`
error is logged (`c.log.Error`) and `transfer` still returns `nil`. -/
def transfer (env : TransferEnv) : TransferOutcome :=
  if !env.clientPresent then
    { result := some "transfer cannot be called with nil SSH client",
      fileWritten := false, closeAttempted := false, closeSucceeded := false }
  else if !env.sftpOk then
    { result := some "sftp client error",
      fileWritten := false, closeAttempted := false, closeSucceeded := false }
  else if !env.mkdirOk then
    { result := some "error creating remote directory",
      fileWritten := false, closeAttempted := false, closeSucceeded := false }
  else if !env.createOk then
    { result := some "error initializing file on Windows VM",
      fileWritten := false, closeAttempted := false, closeSucceeded := false }
  else if !env.copyOk then
    { result := some "error copying to the Windows VM",
      fileWritten := false, closeAttempted := false, closeSucceeded := false }
  else
    { result := none,
      fileWritten := true, closeAttempted := true, closeSucceeded := env.closeOk }

/-! ## Upgrade gate (controllers) -/

/-- The upgrade-gate view of a node: whether it carries the
storage-driver-migrated marker label, and the names of the volumes currently
attached to it. -/
structure GateNode where
  hasMigratedMarker : Bool
  attachedVolumes : List String
deriving Repr, DecidableEq

/-- One entry of the live volume-stats snapshot: a volume name and whether the
stats reference it through an in-tree (old-driver) volume path. -/
structure VolumeStat where
  volumeName : String
  inTree : Bool
deriving Repr, DecidableEq

/-- Modelled from the spec: `instanceReconciler.upgradeBlocked` is not among the
sources (only its unit test is).  Per spec section 4.4: if the node already
carries the storage-driver-migrated marker, upgrade is never blocked; otherwise
blocked iff `migratingToNewDriver` is true AND at least one currently-attached
volume on the node is referenced by an in-tree volume path in the live stats
snapshot. -/
def upgradeBlocked (node : GateNode) (migratingToNewDriver : Bool)
    (liveStats : List VolumeStat) : Bool :=
  if node.hasMigratedMarker then false
  else
    migratingToNewDriver &&
      liveStats.any fun v => v.inTree && node.attachedVolumes.contains v.volumeName

/-! ## Certificate bundle convergence -/

/-- Modelled from the spec: the trust-bundle merge of the rotation engine
(`pkg/certificates`) is not among the sources (only its e2e test is).  Per spec
section 4.5 the engine computes the merged bundle as the union of the prior and
the new certificate blocks, never a destructive replace.  A bundle is a list of
PEM certificate blocks. -/
def mergeBundle (prior newCerts : List String) : List String :=
  prior ++ newCerts.filter fun c => !(prior.contains c)

/-- Modelled from the spec: one convergence pass over one managed host
(`pkg/certificates` is not among the sources).  Per spec section 4.5: read the
host's current bundle file, compare against the expected merged content, and if
absent re-install the merged bundle via transfer.  The textual trimmed
comparison of the e2e test (`strings.Contains`) is modelled per certificate
block: the host is converged when every block of the merged bundle is present
in its installed content. -/
def convergencePass (prior newCerts hostContent : List String) : List String :=
  let expected := mergeBundle prior newCerts
  if expected.all (fun c => hostContent.contains c) then hostContent else expected

/-! ## Theorems -/

/-- Claim C1: for every InstanceRecord, `UpToDate` returns false whenever the
record's cluster object (Node) is nil, and otherwise returns true if and only
if the version annotation is present on the cluster object and its value equals
the running controller version. -/
theorem UpToDate_characterization (i : InstanceInfo) (currentVersion : String) :
    (i.node = none → i.UpToDate currentVersion = false) ∧
    (∀ n, i.node = some n →
      (i.UpToDate currentVersion = true ↔
        n.annotations.lookup versionAnnotationKey = some currentVersion)) := by
  constructor
  · intro h
    simp [InstanceInfo.UpToDate, h]
  · intro n h
    cases hl : n.annotations.lookup versionAnnotationKey with
    | none => simp [InstanceInfo.UpToDate, h, hl]
    | some v =>
      simp only [InstanceInfo.UpToDate, h, hl, beq_iff_eq, Option.some.injEq]

/-- Witness for C1 at concrete records: a record whose node carries the version
annotation with the current version is up to date, and a record with no node is
not. -/
theorem UpToDate_characterization_witness :
    (NewInstanceInfo "10.0.0.1" "Administrator" ""
        (some { annotations := [(versionAnnotationKey, "7.0.0")] })).UpToDate "7.0.0" = true ∧
    (NewInstanceInfo "10.0.0.1" "Administrator" "" none).UpToDate "7.0.0" = false := by
  constructor
  · exact ((UpToDate_characterization
      (NewInstanceInfo "10.0.0.1" "Administrator" ""
        (some { annotations := [(versionAnnotationKey, "7.0.0")] })) "7.0.0").2
      { annotations := [(versionAnnotationKey, "7.0.0")] } rfl).mpr (by simp)
  · exact (UpToDate_characterization
      (NewInstanceInfo "10.0.0.1" "Administrator" "" none) "7.0.0").1 rfl

/-- Claim C2: for every InstanceRecord, `UpgradeRequired` returns false when
`UpToDate` is true, false when the Node is nil, false when the version
annotation is absent, and true in every remaining case (annotation present with
a value unequal to the running controller version). -/
theorem UpgradeRequired_characterization (i : InstanceInfo) (currentVersion : String) :
    (i.UpToDate currentVersion = true → i.UpgradeRequired currentVersion = false) ∧
    (i.node = none → i.UpgradeRequired currentVersion = false) ∧
    (∀ n, i.node = some n → n.annotations.lookup versionAnnotationKey = none →
      i.UpgradeRequired currentVersion = false) ∧
    (∀ n v, i.node = some n → n.annotations.lookup versionAnnotationKey = some v →
      v ≠ currentVersion → i.UpgradeRequired currentVersion = true) := by
  refine ⟨?_, ?_, ?_, ?_⟩
  · intro h
    simp [InstanceInfo.UpgradeRequired, h]
  · intro h
    simp [InstanceInfo.UpgradeRequired, InstanceInfo.UpToDate, h]
  · intro n h hl
    simp [InstanceInfo.UpgradeRequired, InstanceInfo.UpToDate, h, hl]
  · intro n v h hl hne
    simp [InstanceInfo.UpgradeRequired, InstanceInfo.UpToDate, h, hl, hne]

/-- Witness for C2 at a concrete record: annotation present with a stale value
forces the upgrade path, and the other three rows return false. -/
theorem UpgradeRequired_characterization_witness :
    (NewInstanceInfo "a" "u" ""
        (some { annotations := [(versionAnnotationKey, "6.0.0")] })).UpgradeRequired "7.0.0"
      = true ∧
    (NewInstanceInfo "a" "u" "" none).UpgradeRequired "7.0.0" = false ∧
    (NewInstanceInfo "a" "u" "" (some { annotations := [] })).UpgradeRequired "7.0.0"
      = false := by
  refine ⟨?_, ?_, ?_⟩
  · exact (UpgradeRequired_characterization
      (NewInstanceInfo "a" "u" "" (some { annotations := [(versionAnnotationKey, "6.0.0")] }))
      "7.0.0").2.2.2 { annotations := [(versionAnnotationKey, "6.0.0")] } "6.0.0" rfl (by simp)
      (by decide)
  · exact (UpgradeRequired_characterization
      (NewInstanceInfo "a" "u" "" none) "7.0.0").2.1 rfl
  · exact (UpgradeRequired_characterization
      (NewInstanceInfo "a" "u" "" (some { annotations := [] })) "7.0.0").2.2.1
      { annotations := [] } rfl rfl

/-- Claim C8: `UpToDate` and `UpgradeRequired` are never both true, and every
record falls into exactly one of: up to date, upgrade required, or the
needs-first-time-configuration case (cluster object absent or annotation
absent). -/
theorem lifecycle_predicates_partition (i : InstanceInfo) (currentVersion : String) :
    (i.UpToDate currentVersion && i.UpgradeRequired currentVersion) = false ∧
    (i.UpToDate currentVersion && i.needsFirstTimeConfiguration) = false ∧
    (i.UpgradeRequired currentVersion && i.needsFirstTimeConfiguration) = false ∧
    (i.UpToDate currentVersion || i.UpgradeRequired currentVersion ||
      i.needsFirstTimeConfiguration) = true := by
  cases hn : i.node with
  | none =>
    simp [InstanceInfo.UpToDate, InstanceInfo.UpgradeRequired,
      InstanceInfo.needsFirstTimeConfiguration, hn]
  | some n =>
    cases hl : n.annotations.lookup versionAnnotationKey with
    | none =>
      simp [InstanceInfo.UpToDate, InstanceInfo.UpgradeRequired,
        InstanceInfo.needsFirstTimeConfiguration, hn, hl]
    | some v =>
      by_cases hv : v = currentVersion
      · simp [InstanceInfo.UpToDate, InstanceInfo.UpgradeRequired,
          InstanceInfo.needsFirstTimeConfiguration, hn, hl, hv]
      · simp [InstanceInfo.UpToDate, InstanceInfo.UpgradeRequired,
          InstanceInfo.needsFirstTimeConfiguration, hn, hl, hv]

/-- Claim C6: `GenerateAddPatch` on an empty mapping and `GenerateRemovePatch`
on an empty key list each fail with the input error and produce no patch
document; every non-empty input succeeds with a patch document. -/
theorem generatePatch_empty_input_error (m : List (String × String)) (ks : List String) :
    (m = [] → GenerateAddPatch m = .error "annotations to format cannot be empty or nil") ∧
    (m ≠ [] → ∃ ps, GenerateAddPatch m = .ok ps) ∧
    (ks = [] → GenerateRemovePatch ks
      = .error "annotations to format cannot be empty or nil") ∧
    (ks ≠ [] → ∃ ps, GenerateRemovePatch ks = .ok ps) := by
  refine ⟨?_, ?_, ?_, ?_⟩
  · intro h
    simp [GenerateAddPatch, generateAnnotationPatch, h]
  · intro h
    have hlen : ¬m.length = 0 := by simpa using h
    exact ⟨_, by unfold GenerateAddPatch generateAnnotationPatch; rw [if_neg hlen]⟩
  · intro h
    simp [GenerateRemovePatch, generateAnnotationPatch, h]
  · intro h
    have hd : ks.dedup ≠ [] := by
      simpa [List.dedup_eq_nil] using h
    have hlen : ¬(ks.dedup.map fun a => (a, "")).length = 0 := by
      simpa using hd
    exact ⟨_, by unfold GenerateRemovePatch generateAnnotationPatch; rw [if_neg hlen]⟩

/-- Witness for C6 at concrete inputs: the empty mapping and empty key list
fail with the input error, and singleton inputs succeed. -/
theorem generatePatch_empty_input_error_witness :
    GenerateAddPatch [] = .error "annotations to format cannot be empty or nil" ∧
    (∃ ps, GenerateAddPatch [("a/b", "v")] = .ok ps) ∧
    GenerateRemovePatch [] = .error "annotations to format cannot be empty or nil" ∧
    (∃ ps, GenerateRemovePatch ["k1"] = .ok ps) := by
  refine ⟨?_, ?_, ?_, ?_⟩
  · exact (generatePatch_empty_input_error [] []).1 rfl
  · exact (generatePatch_empty_input_error [("a/b", "v")] []).2.1 (by decide)
  · exact (generatePatch_empty_input_error [] []).2.2.1 rfl
  · exact (generatePatch_empty_input_error [] ["k1"]).2.2.2 (by decide)

/-- Claim C7: the patch path built for an annotation key escapes every '/'
occurring in the key, so the resulting path segment contains no unescaped
separator character; the key "a/b" yields the segment "a~1b". -/
theorem formatPathValue_escapes_separator (key : String) :
    (escapeKey key).data.contains '/' = false ∧
    formatPathValue "a/b" = "/metadata/annotations/a~1b" := by
  constructor
  · have h : '/' ∉ (escapeKey key).data := by
      simp only [escapeKey, List.mem_flatMap]
      rintro ⟨a, _, hmem⟩
      by_cases hc : a = '/'
      · simp [hc] at hmem
      · simp [hc] at hmem
        exact hc (hmem ▸ rfl)
    simpa using h
  · rfl

/-- Claim C10: the key-to-patch-path escaping is not injective: the distinct
keys "a/b" and "a~1b" map to the same patch path, because '/' is replaced by
"~1" while a literal '~' in a key is left unescaped. -/
theorem formatPathValue_not_injective :
    formatPathValue "a/b" = formatPathValue "a~1b" ∧
    ("a/b" == "a~1b") = false := by
  constructor
  · rfl
  · decide

/-- Attempt `j` of a dial sequence fails transiently: the dial returns an
error whose message does not contain the authentication-failure marker. -/
def transientAt (dial : DialSeq) (j : Nat) : Prop :=
  ∃ m, dial j = some m ∧ containsAuthFailure m = false

/-- If all attempts before `i + k` (from `i` on) are transient and attempt
`i + k` dials successfully within the fuel window, the loop stops there with
the successful client. -/
theorem sshDialLoop_ok (dial : DialSeq) :
    ∀ k fuel i, k < fuel → (∀ j, j < k → transientAt dial (i + j)) →
      dial (i + k) = none → sshDialLoop dial fuel i = .ok (i + k) := by
  intro k
  induction k with
  | zero =>
    intro fuel i hk htrans hdial
    cases fuel with
    | zero => omega
    | succ f =>
      unfold sshDialLoop
      rw [show i + 0 = i from rfl] at hdial
      rw [hdial]
      rfl
  | succ k ih =>
    intro fuel i hk htrans hdial
    cases fuel with
    | zero => omega
    | succ f =>
      obtain ⟨m, hm, hauth⟩ := htrans 0 (Nat.succ_pos k)
      rw [show i + 0 = i from rfl] at hm
      unfold sshDialLoop
      rw [hm]
      simp only [hauth, Bool.false_eq_true, if_false]
      rw [show i + (k + 1) = i + 1 + k from by omega] at hdial
      rw [show i + (k + 1) = i + 1 + k from by omega]
      exact ih f (i + 1) (by omega)
        (fun j hj => by
          have h := htrans (j + 1) (by omega)
          rwa [show i + (j + 1) = i + 1 + j from by omega] at h)
        hdial

/-- If all attempts before `i + k` (from `i` on) are transient and attempt
`i + k` fails with a credential rejection within the fuel window, the loop
aborts there with the authentication error, regardless of any later attempt. -/
theorem sshDialLoop_auth (dial : DialSeq) :
    ∀ k fuel i m, k < fuel → (∀ j, j < k → transientAt dial (i + j)) →
      dial (i + k) = some m → containsAuthFailure m = true →
      sshDialLoop dial fuel i = .error (.auth m) := by
  intro k
  induction k with
  | zero =>
    intro fuel i m hk htrans hdial hauth
    cases fuel with
    | zero => omega
    | succ f =>
      unfold sshDialLoop
      rw [show i + 0 = i from rfl] at hdial
      rw [hdial]
      simp only [hauth, if_true]
  | succ k ih =>
    intro fuel i m hk htrans hdial hauth
    cases fuel with
    | zero => omega
    | succ f =>
      obtain ⟨m0, hm0, hauth0⟩ := htrans 0 (Nat.succ_pos k)
      rw [show i + 0 = i from rfl] at hm0
      unfold sshDialLoop
      rw [hm0]
      simp only [hauth0, Bool.false_eq_true, if_false]
      rw [show i + (k + 1) = i + 1 + k from by omega] at hdial
      exact ih f (i + 1) m (by omega)
        (fun j hj => by
          have h := htrans (j + 1) (by omega)
          rwa [show i + (j + 1) = i + 1 + j from by omega] at h)
        hdial hauth

/-- If every attempt in the fuel window is transient, the loop exhausts its
fuel and returns the poll-timeout error. -/
theorem sshDialLoop_timeout (dial : DialSeq) :
    ∀ fuel i, (∀ j, j < fuel → transientAt dial (i + j)) →
      sshDialLoop dial fuel i = .error .timedOut := by
  intro fuel
  induction fuel with
  | zero => intro i _; rfl
  | succ f ih =>
    intro i h
    obtain ⟨m, hm, hauth⟩ := h 0 (Nat.succ_pos f)
    rw [show i + 0 = i from rfl] at hm
    unfold sshDialLoop
    rw [hm]
    simp only [hauth, Bool.false_eq_true, if_false]
    exact ih (i + 1)
      (fun j hj => by
        have hh := h (j + 1) (by omega)
        rwa [show i + (j + 1) = i + 1 + j from by omega] at hh)

/-- Claim C3: with complete connectivity information, `init` aborts immediately
with an authentication error as soon as an attempt fails with credential
rejection (no further attempts are consulted); a successful dial after only
transient failures yields a usable session with no error; and an all-transient
window ends in the terminal timeout error. -/
theorem init_retry_classification (c : SSHConfig) (fuel : Nat) (dial : DialSeq)
    (hu : c.username ≠ "") (hi : c.ipAddress ≠ "") (hs : c.signerPresent = true) :
    (∀ k, k < fuel → (∀ j, j < k → transientAt dial j) →
      (dial k = none → sshInit c fuel dial = .ok k) ∧
      (∀ m, dial k = some m → containsAuthFailure m = true →
        sshInit c fuel dial = .error (.auth m))) ∧
    ((∀ j, j < fuel → transientAt dial j) →
      sshInit c fuel dial = .error .timedOut) := by
  have hinit : sshInit c fuel dial = sshDialLoop dial fuel 0 := by
    simp [sshInit, hu, hi, hs]
  constructor
  · intro k hk htrans
    constructor
    · intro hdial
      rw [hinit]
      have h := sshDialLoop_ok dial k fuel 0 hk
        (fun j hj => by rw [Nat.zero_add]; exact htrans j hj)
        (by rwa [Nat.zero_add])
      rwa [Nat.zero_add] at h
    · intro m hdial hauth
      rw [hinit]
      exact sshDialLoop_auth dial k fuel 0 m hk
        (fun j hj => by rw [Nat.zero_add]; exact htrans j hj)
        (by rwa [Nat.zero_add]) hauth
  · intro htrans
    rw [hinit]
    exact sshDialLoop_timeout dial fuel 0
      (fun j hj => by rw [Nat.zero_add]; exact htrans j hj)

/-- A dial sequence whose first two attempts are refused connections and whose
third succeeds. -/
def exDialRetry : DialSeq := fun n =>
  if n < 2 then some "dial tcp 10.0.0.1:22: connect: connection refused" else none

/-- A dial sequence whose every attempt is a credential rejection. -/
def exDialAuth : DialSeq := fun _ =>
  some "ssh: handshake failed: ssh: unable to authenticate, attempted methods"

/-- A complete sshConnectivity configuration. -/
def exConfig : SSHConfig :=
  { username := "Administrator", ipAddress := "10.0.0.1", signerPresent := true }

/-- Witness for C3 at concrete transports: two transient failures followed by a
success yield the usable session of attempt 2; a first-attempt credential
rejection aborts immediately with the authentication error. -/
theorem init_retry_classification_witness :
    sshInit exConfig 5 exDialRetry = .ok 2 ∧
    sshInit exConfig 5 exDialAuth =
      .error (.auth "ssh: handshake failed: ssh: unable to authenticate, attempted methods") := by
  constructor
  · exact ((init_retry_classification exConfig 5 exDialRetry (by decide) (by decide)
      rfl).1 2 (by omega)
      (fun j hj =>
        ⟨"dial tcp 10.0.0.1:22: connect: connection refused",
          by simp [exDialRetry, hj], by decide⟩)).1 (by decide)
  · exact ((init_retry_classification exConfig 5 exDialAuth (by decide) (by decide)
      rfl).1 0 (by omega) (fun j hj => absurd hj (by omega))).2
      "ssh: handshake failed: ssh: unable to authenticate, attempted methods"
      rfl (by decide)

/-- Claim C4: `upgradeBlocked` returns false whenever the node carries the
storage-driver-migrated marker label, false whenever `migratingToNewDriver` is
false regardless of attached volumes, and otherwise true if and only if at
least one currently-attached volume on the node is referenced by an in-tree
volume path in the live stats snapshot. -/
theorem upgradeBlocked_characterization (node : GateNode) (stats : List VolumeStat) :
    (node.hasMigratedMarker = true →
      ∀ m, upgradeBlocked node m stats = false) ∧
    upgradeBlocked node false stats = false ∧
    (node.hasMigratedMarker = false →
      (upgradeBlocked node true stats = true ↔
        ∃ v ∈ stats, v.inTree = true ∧
          node.attachedVolumes.contains v.volumeName = true)) := by
  refine ⟨?_, ?_, ?_⟩
  · intro h m
    simp [upgradeBlocked, h]
  · cases h : node.hasMigratedMarker <;> simp [upgradeBlocked, h]
  · intro h
    simp [upgradeBlocked, h, List.any_eq_true]

/-- Witness for C4 at concrete inputs: a marker-free node with volume "vol1"
attached and referenced in-tree is blocked when migrating; the same node is not
blocked when not migrating; a marked node is never blocked. -/
theorem upgradeBlocked_characterization_witness :
    upgradeBlocked { hasMigratedMarker := false, attachedVolumes := ["vol1"] } true
      [{ volumeName := "vol1", inTree := true }] = true ∧
    upgradeBlocked { hasMigratedMarker := false, attachedVolumes := ["vol1"] } false
      [{ volumeName := "vol1", inTree := true }] = false ∧
    upgradeBlocked { hasMigratedMarker := true, attachedVolumes := ["vol1"] } true
      [{ volumeName := "vol1", inTree := true }] = false := by
  refine ⟨?_, ?_, ?_⟩
  · exact ((upgradeBlocked_characterization
      { hasMigratedMarker := false, attachedVolumes := ["vol1"] }
      [{ volumeName := "vol1", inTree := true }]).2.2 rfl).mpr
      ⟨{ volumeName := "vol1", inTree := true }, by simp, rfl, by decide⟩
  · exact (upgradeBlocked_characterization
      { hasMigratedMarker := false, attachedVolumes := ["vol1"] }
      [{ volumeName := "vol1", inTree := true }]).2.1
  · exact (upgradeBlocked_characterization
      { hasMigratedMarker := true, attachedVolumes := ["vol1"] }
      [{ volumeName := "vol1", inTree := true }]).1 rfl true

/-- A transfer run in which every remote operation succeeds except the final
`dstFile.Close()`. -/
def closeFailEnv : TransferEnv :=
  { clientPresent := true, sftpOk := true, mkdirOk := true, createOk := true,
    copyOk := true, closeOk := false }

/-- Counterexample to claim C5 as stated: when the final `dstFile.Close()`
fails, `transfer` logs the close error and still returns a nil error, so
`transfer` can return success while the remote destination file failed to
close. -/
theorem transfer_close_failure_counterexample :
    (transfer closeFailEnv).result = none ∧
    (transfer closeFailEnv).closeSucceeded = false := by
  constructor
  · rfl
  · rfl

/-- Claim C5 as amended: `transfer` returns success only after the destination
file has been fully written and a close of it has been attempted; a close
failure is logged and does not fail the transfer. -/
theorem transfer_success_requires_write_and_close_attempt (env : TransferEnv) :
    (transfer env).result = none →
    (transfer env).fileWritten = true ∧ (transfer env).closeAttempted = true := by
  obtain ⟨cp, sf, mk, cr, co, cl⟩ := env
  cases cp <;> cases sf <;> cases mk <;> cases cr <;> cases co <;> cases cl <;>
    simp [transfer]

/-- A transfer run in which every remote operation succeeds. -/
def allOkEnv : TransferEnv :=
  { clientPresent := true, sftpOk := true, mkdirOk := true, createOk := true,
    copyOk := true, closeOk := true }

/-- Witness for the amended C5 at a concrete run in which every remote
operation succeeds. -/
theorem transfer_success_requires_write_and_close_attempt_witness :
    (transfer allOkEnv).fileWritten = true ∧
    (transfer allOkEnv).closeAttempted = true :=
  transfer_success_requires_write_and_close_attempt allOkEnv rfl

/-- Claim C9: the bundle a convergence pass installs on a host is the union of
the prior and the new certificate blocks, never a destructive replace: every
prior certificate and every new certificate is present in the host's content
after the pass. -/
theorem convergencePass_union (prior newCerts hostContent : List String) :
    (∀ c, c ∈ prior → c ∈ convergencePass prior newCerts hostContent) ∧
    (∀ c, c ∈ newCerts → c ∈ convergencePass prior newCerts hostContent) := by
  unfold convergencePass
  by_cases hall : (mergeBundle prior newCerts).all (fun c => hostContent.contains c) = true
  · rw [if_pos hall]
    rw [List.all_eq_true] at hall
    constructor
    · intro c hc
      have hm : c ∈ mergeBundle prior newCerts := by
        unfold mergeBundle
        exact List.mem_append_left _ hc
      simpa using hall c hm
    · intro c hc
      have hm : c ∈ mergeBundle prior newCerts := by
        unfold mergeBundle
        by_cases hp : c ∈ prior
        · exact List.mem_append_left _ hp
        · refine List.mem_append_right _ ?_
          rw [List.mem_filter]
          exact ⟨hc, by simpa using hp⟩
      simpa using hall c hm
  · rw [if_neg hall]
    constructor
    · intro c hc
      unfold mergeBundle
      exact List.mem_append_left _ hc
    · intro c hc
      unfold mergeBundle
      by_cases hp : c ∈ prior
      · exact List.mem_append_left _ hp
      · refine List.mem_append_right _ ?_
        rw [List.mem_filter]
        exact ⟨hc, by simpa using hp⟩

/-- Witness for C9 at the spec's scenario: authoritative bundle containing
certificates A and B, host previously converged on A alone; after one pass the
host holds both A and B, and the installed content is exactly the merged
bundle, not B alone. -/
theorem convergencePass_union_witness :
    "certA" ∈ convergencePass ["certA"] ["certB"] ["certA"] ∧
    "certB" ∈ convergencePass ["certA"] ["certB"] ["certA"] ∧
    convergencePass ["certA"] ["certB"] ["certA"] = ["certA", "certB"] := by
  refine ⟨?_, ?_, ?_⟩
  · exact (convergencePass_union ["certA"] ["certB"] ["certA"]).1 "certA" (by simp)
  · exact (convergencePass_union ["certA"] ["certB"] ["certA"]).2 "certB" (by simp)
  · decide

end WMCO
